import Mathlib

/-!
Verification model of the tdigest aggregate module (src/src/tdigest.rs).

Modelling conventions:
* `f64` values are modelled as `ℚ` (exact arithmetic; no claim settled in
  this file depends on floating-point rounding).
* The `TDigest` type and its operations (`new_with_size`, `merge_unsorted`,
  `merge_digests`) live in the repository's tdigest crate, which is not
  under src/; those definitions are modelled from the spec (sections 3,
  4.2 and 4.3) and are marked as such in their doc comments.
* Host plumbing the spec declares out of scope (memory contexts, the
  aggregate-calling protocol, varlena headers, detoasting) is omitted;
  error reporting and panics are modelled as `Except.error`.
* Byte buffers are modelled at 8-byte-word granularity: every field that
  bincode writes (u64 vector lengths, f64 scalars, usize) occupies one
  word of type `ℕ`.  The IEEE bit pattern of an f64 is abstracted by a
  parameter `toBits : ℚ → ℕ` on the write side and `ofBits : ℕ → ℚ` on
  the read side; the serialization theorems below hold for every choice
  of these parameters, so nothing depends on the concrete bit encoding.
-/

/-- A centroid: a (mean, weight) pair.  Modelled from the spec (section 3);
the concrete type lives in the tdigest crate, outside src/. -/
structure Centroid where
  mean : ℚ
  weight : ℚ
deriving DecidableEq

/-- Modelled from the spec: the compressed sketch (spec section 3) of the
repository's tdigest crate, which is not under src/.  The field order
(centroids, sum, count, max, min, max_size) is also the order in which the
binary codec writes the fields. -/
structure TDigest where
  centroids : List Centroid
  sum : ℚ
  count : ℚ
  max : ℚ
  min : ℚ
  max_size : ℕ
deriving DecidableEq

/-- Modelled from the spec: a fresh empty digest with the given capacity.
For an empty digest (count = 0) the min/max fields are unused sentinels;
this model uses 0 and guards every later min/max update on count = 0. -/
def TDigest.new_with_size (size : ℕ) : TDigest :=
  { centroids := [], sum := 0, count := 0, max := 0, min := 0, max_size := size }

/-- Insert a centroid into a mean-sorted list, keeping it sorted. -/
def insertByMean (c : Centroid) : List Centroid → List Centroid
  | [] => [c]
  | d :: rest => if c.mean ≤ d.mean then c :: d :: rest else d :: insertByMean c rest

/-- Sort a centroid list by ascending mean (spec section 4.2 sorts all
points by mean before clustering). -/
def sortByMean (l : List Centroid) : List Centroid :=
  l.foldr insertByMean []

/-- Modelled from the spec: the scale-function weight bound.  Spec sections
4.2 and 9 leave the exact shape of the scale function to the implementer;
this model uses the standard symmetric, tail-tightening quadratic bound
4 W q (1 - q) / C at quantile position q.  In ℚ, division by zero yields
0, so capacity 0 forces every cluster to close immediately. -/
def scaleLimit (cap : ℕ) (W σ : ℚ) : ℚ :=
  4 * W * (σ / W) * (1 - σ / W) / (cap : ℚ)

/-- Modelled from the spec: the greedy clustering walk of spec section 4.2.
Arguments: capacity, total weight, remaining sorted points, cumulative
weight consumed so far, current cluster weight, current cluster sum of
mean times weight. -/
def digestLoop (cap : ℕ) (W : ℚ) : List Centroid → ℚ → ℚ → ℚ → List Centroid
  | [], _, cw, cmw => if cw = 0 then [] else [{ mean := cmw / cw, weight := cw }]
  | p :: rest, σ, cw, cmw =>
    if cw = 0 then
      digestLoop cap W rest (σ + p.weight) p.weight (p.mean * p.weight)
    else if cw + p.weight ≤ scaleLimit cap W (σ + p.weight) then
      digestLoop cap W rest (σ + p.weight) (cw + p.weight) (cmw + p.mean * p.weight)
    else
      { mean := cmw / cw, weight := cw } ::
        digestLoop cap W rest (σ + p.weight) p.weight (p.mean * p.weight)

/-- Minimum of a list of rationals, seeded with its first element (0 for
the empty list; callers guard emptiness). -/
def listMin : List ℚ → ℚ
  | [] => 0
  | x :: xs => xs.foldl Min.min x

/-- Maximum of a list of rationals, seeded with its first element (0 for
the empty list; callers guard emptiness). -/
def listMax : List ℚ → ℚ
  | [] => 0
  | x :: xs => xs.foldl Max.max x

/-- Modelled from the spec: digestion of new raw values into an existing
digest (spec section 4.2).  Every raw value becomes a (value, 1) point,
all points are sorted by mean and clustered; sum/count/min/max are updated
by simple accumulation, with min/max guarded on the previously-empty
case.  Capacity never changes. -/
def TDigest.merge_unsorted (d : TDigest) (vals : List ℚ) : TDigest :=
  let pts := sortByMean (d.centroids ++ vals.map (fun v => { mean := v, weight := 1 }))
  let newCount := d.count + (vals.length : ℚ)
  { centroids := digestLoop d.max_size newCount pts 0 0 0
    sum := d.sum + vals.sum
    count := newCount
    max := if vals = [] then d.max
           else if d.count = 0 then listMax vals else Max.max d.max (listMax vals)
    min := if vals = [] then d.min
           else if d.count = 0 then listMin vals else Min.min d.min (listMin vals)
    max_size := d.max_size }

/-- Modelled from the spec: merging a collection of digests (spec section
4.3).  Concatenate the centroid lists, sum the sums and counts, take the
global min/max over the inputs with nonzero count, take the maximum input
capacity (an empty collection gives an empty digest of the default
capacity 100); then run the clustering over the concatenated centroids
with no raw values. -/
def TDigest.merge_digests : List TDigest → TDigest
  | [] => TDigest.new_with_size 100
  | d :: rest =>
    let ds := d :: rest
    let cap := rest.foldl (fun a x => Nat.max a x.max_size) d.max_size
    let total := (ds.map TDigest.count).sum
    let live := ds.filter (fun x => decide (x.count ≠ 0))
    { centroids := digestLoop cap total (sortByMean (ds.map TDigest.centroids).flatten) 0 0 0
      sum := (ds.map TDigest.sum).sum
      count := total
      max := listMax (live.map TDigest.max)
      min := listMin (live.map TDigest.min)
      max_size := cap }

/-- The aggregate transition state (src/src/tdigest.rs lines 24-29): a
pending buffer of raw values plus the compressed digest.  The serde
attribute skip_serializing on buffer is reflected in transStateWords
below. -/
structure TDigestTransState where
  buffer : List ℚ
  digested : TDigest
deriving DecidableEq

/-- TDigestTransState::digest (lines 39-45): flush the buffer through
digestion; no-op on an empty buffer. -/
def TDigestTransState.digest (s : TDigestTransState) : TDigestTransState :=
  if s.buffer = [] then s
  else { buffer := [], digested := s.digested.merge_unsorted s.buffer }

/-- TDigestTransState::push (lines 32-37): append the value, then digest
when the buffer length has reached the digest's capacity. -/
def TDigestTransState.push (s : TDigestTransState) (value : ℚ) : TDigestTransState :=
  let s' : TDigestTransState := { buffer := s.buffer ++ [value], digested := s.digested }
  if s'.digested.max_size ≤ s'.buffer.length then s'.digest else s'

/-- tdigest_trans (lines 51-80).  The aggregate-context check and the
memory-context wrapper are host protocol, out of scope per the spec;
error reporting is modelled by Except.error.  Note that the body performs
no validation of size. -/
def tdigest_trans (state : Option TDigestTransState) (size : ℕ) (value : Option ℚ) :
    Except String (Option TDigestTransState) :=
  match value with
  | none => Except.ok state
  | some v =>
    let s : TDigestTransState :=
      match state with
      | none => { buffer := [], digested := TDigest.new_with_size size }
      | some s => s
    Except.ok (some (s.push v))

/-- tdigest_combine (lines 82-117).  In the (some, some) arm the source
builds digvec from the two digests, then calls merge_unsorted on the
corresponding digest for each non-empty buffer but discards the returned
digest (merge_unsorted returns a new digest; the result of the call on
digvec[i] is never stored), and finally merges digvec as originally
built; the model therefore merges the two unflushed digests and the
discarded calls do not appear. -/
def tdigest_combine (state1 state2 : Option TDigestTransState) :
    Option TDigestTransState :=
  match state1, state2 with
  | none, none => none
  | none, some s2 => some s2
  | some s1, none => some s1
  | some s1, some s2 =>
    some { buffer := [], digested := TDigest.merge_digests [s1.digested, s2.digested] }

/-- Bincode words of one centroid: mean then weight. -/
def centroidWords (toBits : ℚ → ℕ) (c : Centroid) : List ℕ :=
  [toBits c.mean, toBits c.weight]

/-- Bincode words of a TDigest: length-prefixed centroid vector followed
by sum, count, max, min, max_size, in struct-field order. -/
def tdigestWords (toBits : ℚ → ℕ) (d : TDigest) : List ℕ :=
  d.centroids.length ::
    ((d.centroids.map (centroidWords toBits)).flatten ++
      [toBits d.sum, toBits d.count, toBits d.max, toBits d.min, d.max_size])

/-- Bincode words of a transition state: because of the serde attribute
skip_serializing on buffer, only the digested field is written. -/
def transStateWords (toBits : ℚ → ℕ) (s : TDigestTransState) : List ℕ :=
  tdigestWords toBits s.digested

/-- tdigest_serialize (lines 122-138): flushes the state, then writes the
bincode words (the 4-byte varlena header is host framing, out of scope).
Returns the mutated state together with the written words. -/
def tdigest_serialize (toBits : ℚ → ℕ) (state : TDigestTransState) :
    TDigestTransState × List ℕ :=
  let flushed := state.digest
  (flushed, transStateWords toBits flushed)

/-- Read one u64 word. -/
def readWord : List ℕ → Option (ℕ × List ℕ)
  | [] => none
  | w :: rest => some (w, rest)

/-- Read one f64 word, interpreting its bits. -/
def readF64 (ofBits : ℕ → ℚ) : List ℕ → Option (ℚ × List ℕ)
  | [] => none
  | w :: rest => some (ofBits w, rest)

/-- Read n f64 words. -/
def readF64s (ofBits : ℕ → ℚ) : ℕ → List ℕ → Option (List ℚ × List ℕ)
  | 0, l => some ([], l)
  | n + 1, l =>
    match readF64 ofBits l with
    | none => none
    | some (x, l1) =>
      match readF64s ofBits n l1 with
      | none => none
      | some (xs, l2) => some (x :: xs, l2)

/-- Read n centroids (two f64 words each). -/
def readCentroids (ofBits : ℕ → ℚ) : ℕ → List ℕ → Option (List Centroid × List ℕ)
  | 0, l => some ([], l)
  | n + 1, l =>
    match readF64 ofBits l with
    | none => none
    | some (m, l1) =>
      match readF64 ofBits l1 with
      | none => none
      | some (w, l2) =>
        match readCentroids ofBits n l2 with
        | none => none
        | some (cs, l3) => some ({ mean := m, weight := w } :: cs, l3)

/-- Bincode read of a TDigest, in the same field order the writer uses. -/
def readTDigest (ofBits : ℕ → ℚ) (l : List ℕ) : Option (TDigest × List ℕ) :=
  match readWord l with
  | none => none
  | some (k, l1) =>
    match readCentroids ofBits k l1 with
    | none => none
    | some (cs, l2) =>
      match readF64 ofBits l2 with
      | none => none
      | some (s, l3) =>
        match readF64 ofBits l3 with
        | none => none
        | some (c, l4) =>
          match readF64 ofBits l4 with
          | none => none
          | some (mx, l5) =>
            match readF64 ofBits l5 with
            | none => none
            | some (mn, l6) =>
              match readWord l6 with
              | none => none
              | some (cap, l7) =>
                some ({ centroids := cs, sum := s, count := c,
                        max := mx, min := mn, max_size := cap }, l7)

/-- Bincode read of a TDigestTransState.  The derived Deserialize still
reads the buffer field (the serde attribute is skip_serializing, not
skip), so a length-prefixed f64 vector is consumed before the digest. -/
def readTransState (ofBits : ℕ → ℚ) (l : List ℕ) :
    Option (TDigestTransState × List ℕ) :=
  match readWord l with
  | none => none
  | some (n, l1) =>
    match readF64s ofBits n l1 with
    | none => none
    | some (buf, l2) =>
      match readTDigest ofBits l2 with
      | none => none
      | some (d, l3) => some ({ buffer := buf, digested := d }, l3)

/-- tdigest_deserialize (lines 140-154): bincode decode of the words; a
failed decode aborts the operation, modelled as Except.error. -/
def tdigest_deserialize (ofBits : ℕ → ℚ) (words : List ℕ) :
    Except String TDigestTransState :=
  match readTransState ofBits words with
  | none => Except.error "deserialization error"
  | some (s, _) => Except.ok s

/-- The flattened on-disk digest type (pg_type, lines 156-166). -/
structure TimescaleTDigest where
  buckets : ℕ
  count : ℕ
  sum : ℚ
  min : ℚ
  max : ℚ
  means : List ℚ
  weights : List ℕ
deriving DecidableEq

/-- The Rust cast from f64 to u32: truncate toward zero and saturate. -/
def f64_as_u32 (q : ℚ) : ℕ :=
  Min.min (Rat.floor q).toNat (2 ^ 32 - 1)

/-- tdigest_final (lines 198-240): flush, then flatten into the pg type.
The u32 conversion of max_size aborts above u32 range, and the loop
writes means[i] and weights[i] for every raw centroid, which is out of
bounds whenever the number of centroids exceeds min(buckets, count); both
aborts are modelled as Except.error.  When there are fewer centroids than
min(buckets, count) the remaining slots keep their initial zeros. -/
def tdigest_final (state : Option TDigestTransState) :
    Except String (Option TimescaleTDigest) :=
  match state with
  | none => Except.ok none
  | some s0 =>
    let s := s0.digest
    if 2 ^ 32 ≤ s.digested.max_size then Except.error "unwrap on u32 conversion"
    else
      let buckets := s.digested.max_size
      let cnt := f64_as_u32 s.digested.count
      let vec_size := Min.min buckets cnt
      if vec_size < s.digested.centroids.length then Except.error "index out of bounds"
      else
        Except.ok (some
          { buckets := buckets
            count := cnt
            sum := s.digested.sum
            min := s.digested.min
            max := s.digested.max
            means := s.digested.centroids.map Centroid.mean ++
              List.replicate (vec_size - s.digested.centroids.length) 0
            weights := s.digested.centroids.map (fun c => f64_as_u32 c.weight) ++
              List.replicate (vec_size - s.digested.centroids.length) 0 })

/-- tdigest_mean (lines 284-294): sum over count when the stored u32 count
is positive, otherwise 0. -/
def tdigest_mean (digest : TimescaleTDigest) : ℚ :=
  if 0 < digest.count then digest.sum / (digest.count : ℚ) else 0

/-- The transition state produced by tdigest_trans on a first observation
of 1 with capacity 0: the value digests immediately into a single
centroid while max_size stays 0. -/
def zeroCapState : TDigestTransState :=
  { buffer := [],
    digested := { centroids := [{ mean := 1, weight := 1 }],
                  sum := 1, count := 1, max := 1, min := 1, max_size := 0 } }

/-- A state holding one pending value 1 and an empty digest of capacity
10, as built by a single tdigest_trans call. -/
def bufOnlyState1 : TDigestTransState :=
  { buffer := [1], digested := TDigest.new_with_size 10 }

/-- A state holding one pending value 2 and an empty digest of capacity
10, as built by a single tdigest_trans call. -/
def bufOnlyState2 : TDigestTransState :=
  { buffer := [2], digested := TDigest.new_with_size 10 }

/-- C1: the claim says tdigest_combine of two non-null states flushes both
pending buffers into the merged digest.  It does not: on the two reachable
states holding pending values 1 and 2, the combined digest has count 0
(both buffered values are dropped, because the digests returned by the
merge_unsorted calls are discarded), whereas merging the flushed digests,
as the spec prescribes, gives count 2. -/
theorem tdigest_combine_drops_buffered_values :
    tdigest_trans none 10 (some 1) = Except.ok (some bufOnlyState1) ∧
    tdigest_trans none 10 (some 2) = Except.ok (some bufOnlyState2) ∧
    (tdigest_combine (some bufOnlyState1) (some bufOnlyState2)).map
      (fun r => r.digested.count) = some 0 ∧
    (TDigest.merge_digests
      [bufOnlyState1.digested.merge_unsorted bufOnlyState1.buffer,
       bufOnlyState2.digested.merge_unsorted bufOnlyState2.buffer]).count = 2 := by
  refine ⟨?_, ?_, ?_, ?_⟩
  · norm_num [tdigest_trans, TDigestTransState.push, bufOnlyState1, TDigest.new_with_size]
  · norm_num [tdigest_trans, TDigestTransState.push, bufOnlyState2, TDigest.new_with_size]
  · norm_num [tdigest_combine, TDigest.merge_digests, TDigest.new_with_size,
      bufOnlyState1, bufOnlyState2]
  · norm_num [TDigest.merge_digests, TDigest.merge_unsorted, TDigest.new_with_size,
      bufOnlyState1, bufOnlyState2]

/-- Reading a TDigest from exactly five words always fails: after the
centroid vector is consumed at most four words remain, while the five
trailing fields (sum, count, max, min, max_size) still have to be read. -/
lemma readTDigest_five (f : ℕ → ℚ) (k a b c d : ℕ) :
    readTDigest f [k, a, b, c, d] = none := by
  match k with
  | 0 => rfl
  | 1 => rfl
  | 2 => rfl
  | n + 3 => rfl

/-- C2: the claim says decode of encode succeeds and reproduces the digest
exactly.  It does not: because buffer is skipped when writing but still
read when decoding, the decoder misparses and runs out of input.  On the
state with an empty digest of capacity 100, deserialization of the
serialized words fails for every choice of the f64 bit encoding. -/
theorem tdigest_roundtrip_decode_fails (toBits : ℚ → ℕ) (ofBits : ℕ → ℚ) :
    tdigest_deserialize ofBits
      (tdigest_serialize toBits { buffer := [], digested := TDigest.new_with_size 100 }).2 =
    Except.error "deserialization error" := by
  have h := readTDigest_five ofBits (toBits 0) (toBits 0) (toBits 0) (toBits 0) 100
  simp [tdigest_serialize, tdigest_deserialize, transStateWords, tdigestWords,
    TDigestTransState.digest, TDigest.new_with_size, readTransState, readWord, readF64s,
    centroidWords, h]

/-- C3: the claim says a capacity of 0 supplied at creation is reported as
an immediate error with no state created.  Instead tdigest_trans performs
no validation: with no prior state, size 0 and value 1 it returns ok with
a freshly created capacity-0 state in which the value has already been
digested. -/
theorem tdigest_trans_zero_size_creates_state :
    tdigest_trans none 0 (some 1) = Except.ok (some zeroCapState) := by
  norm_num [tdigest_trans, TDigestTransState.push, TDigestTransState.digest,
    TDigest.new_with_size, TDigest.merge_unsorted, sortByMean, insertByMean,
    digestLoop, scaleLimit, listMin, listMax, zeroCapState]

/-- C4 counterexample: the claim says after every push the buffer length is
strictly less than the capacity.  At capacity 0 a push flushes and leaves
buffer length 0, which is not strictly less than 0. -/
theorem push_strict_bound_fails_at_zero_capacity :
    ¬ (((TDigestTransState.mk [] (TDigest.new_with_size 0)).push 1).buffer.length <
       ((TDigestTransState.mk [] (TDigest.new_with_size 0)).push 1).digested.max_size) := by
  norm_num [TDigestTransState.push, TDigestTransState.digest, TDigest.new_with_size,
    TDigest.merge_unsorted]

/-- C4 (amended): push appends the value to the buffer; if and only if the
resulting buffer length is at least the digest's capacity, it digests the
whole buffer into the centroids and leaves the buffer empty; push never
fails (it is a total function); and after every push the buffer length is
strictly less than the capacity provided the capacity is at least 1. -/
theorem push_spec_amended (s : TDigestTransState) (v : ℚ) :
    ((s.push v).buffer =
      if s.digested.max_size ≤ s.buffer.length + 1 then [] else s.buffer ++ [v]) ∧
    ((s.push v).digested =
      if s.digested.max_size ≤ s.buffer.length + 1 then
        s.digested.merge_unsorted (s.buffer ++ [v]) else s.digested) ∧
    (1 ≤ s.digested.max_size → (s.push v).buffer.length < s.digested.max_size) := by
  unfold TDigestTransState.push TDigestTransState.digest
  by_cases h : s.digested.max_size ≤ s.buffer.length + 1
  · simp [h]
    intro h1
    omega
  · simp [h]
    intro h1
    omega

/-- Witness for push_spec_amended at the empty state of capacity 2 and
value 1: the capacity hypothesis holds and the pushed buffer stays below
the capacity. -/
theorem push_spec_amended_witness :
    1 ≤ (TDigestTransState.mk [] (TDigest.new_with_size 2)).digested.max_size ∧
    ((TDigestTransState.mk [] (TDigest.new_with_size 2)).push 1).buffer.length <
      (TDigestTransState.mk [] (TDigest.new_with_size 2)).digested.max_size :=
  ⟨by norm_num [TDigest.new_with_size],
   (push_spec_amended (TDigestTransState.mk [] (TDigest.new_with_size 2)) 1).2.2
     (by norm_num [TDigest.new_with_size])⟩

/-- C5: the claim says the out-of-bounds branch of the writes in
tdigest_final is unreachable for every state reachable by pushes and
merges.  It is reachable: the capacity-0 state produced by a single
tdigest_trans call keeps one centroid while min(buckets, count) = 0, so
finalization aborts on the out-of-bounds write of means[0]. -/
theorem tdigest_final_index_out_of_bounds_at_zero_capacity :
    tdigest_final (some zeroCapState) = Except.error "index out of bounds" := by
  norm_num [tdigest_final, zeroCapState, TDigestTransState.digest, f64_as_u32]

/-- C6: tdigest_serialize flushes first, so the state it returns carries an
empty pending buffer, and the words it writes are exactly the words of
the flushed digest, for every transition state (the buffer is never
encoded). -/
theorem tdigest_serialize_flushes_and_omits_buffer (toBits : ℚ → ℕ) (s : TDigestTransState) :
    (tdigest_serialize toBits s).1.buffer = [] ∧
    (tdigest_serialize toBits s).2 =
      tdigestWords toBits (tdigest_serialize toBits s).1.digested := by
  unfold tdigest_serialize transStateWords TDigestTransState.digest
  by_cases h : s.buffer = []
  · simp [h]
  · simp [h]

/-- C7: combining with an absent state is an identity: none with some s
yields s itself (same buffer, same digest), some s with none yields s,
and none with none yields none. -/
theorem tdigest_combine_none_identity (s : TDigestTransState) :
    tdigest_combine none (some s) = some s ∧
    tdigest_combine (some s) none = some s ∧
    tdigest_combine none none = none :=
  ⟨rfl, rfl, rfl⟩

/-- C8: finalizing with no accumulated state yields no sketch: tdigest_final
of none returns none (and no error), never an empty digest. -/
theorem tdigest_final_none_yields_none :
    tdigest_final none = Except.ok none := rfl

/-- C9: for every finalized digest, tdigest_mean returns sum divided by
count when count is positive and exactly 0 when count is zero. -/
theorem tdigest_mean_spec (d : TimescaleTDigest) :
    (0 < d.count → tdigest_mean d = d.sum / (d.count : ℚ)) ∧
    (d.count = 0 → tdigest_mean d = 0) := by
  constructor
  · intro h
    simp [tdigest_mean, h]
  · intro h
    simp [tdigest_mean, h]

/-- Witness for tdigest_mean_spec on a digest with count 2 and sum 3 and
on a digest with count 0. -/
theorem tdigest_mean_spec_witness :
    (0 < (TimescaleTDigest.mk 10 2 3 1 2 [1, 2] [1, 1]).count ∧
      tdigest_mean (TimescaleTDigest.mk 10 2 3 1 2 [1, 2] [1, 1]) =
        (TimescaleTDigest.mk 10 2 3 1 2 [1, 2] [1, 1]).sum /
          ((TimescaleTDigest.mk 10 2 3 1 2 [1, 2] [1, 1]).count : ℚ)) ∧
    ((TimescaleTDigest.mk 10 0 0 0 0 [] []).count = 0 ∧
      tdigest_mean (TimescaleTDigest.mk 10 0 0 0 0 [] []) = 0) :=
  ⟨⟨by norm_num, (tdigest_mean_spec (TimescaleTDigest.mk 10 2 3 1 2 [1, 2] [1, 1])).1 (by norm_num)⟩,
   ⟨rfl, (tdigest_mean_spec (TimescaleTDigest.mk 10 0 0 0 0 [] [])).2 rfl⟩⟩

/-- C10: a NULL observation leaves the accumulator completely unchanged:
tdigest_trans with value none returns its input state as-is for every
prior state (including none, for which it returns none) and every size,
creating nothing. -/
theorem tdigest_trans_null_value_unchanged (state : Option TDigestTransState) (size : ℕ) :
    tdigest_trans state size none = Except.ok state := rfl
